import Mathlib

/-!
Verification development for the Spotify-API repository (src/app.py, src/main.py).

The repository is two near-duplicate Flask scripts.  The definitions below are a
shallow embedding of the functions the claims are about, translated directly
from the Python source.  External effects (Spotify catalog, yt-dlp, the
filesystem, image downloads) are modelled as oracle parameters: the embedding
computes exactly the control flow the Python code performs on top of those
oracle answers.  Definitions in namespace `AppPy` come from src/app.py,
definitions in namespace `MainPy` from src/main.py; shared helpers sit at the
top level.
-/

namespace SpotifyAPI

/-- Python truthiness of an optional string field of a metadata dict:
`metadata.get(k)` is truthy iff the key is present and the string non-empty. -/
def truthyStr : Option String → Bool
  | some s => s != ""
  | none => false

/-- Python truthiness of an optional integer field: 0 and a missing key are falsy. -/
def truthyNat : Option Nat → Bool
  | some n => n != 0
  | none => false

/-- Python truthiness of an optional bytes field (cover art): a missing key, a
stored `None` and empty bytes are all falsy. -/
def truthyBytes : Option (List Nat) → Bool
  | some (_ :: _) => true
  | _ => false

/-- Character class of `re.sub(r'[<>:"/\\|?*]', '_', s)` in both scripts. -/
def illegalChar (c : Char) : Bool :=
  c == '<' || c == '>' || c == ':' || c == '"' || c == '/' || c == '\\' ||
    c == '|' || c == '?' || c == '*'

/-- The `re.sub` sanitisation used for all generated file names. -/
def sanitize (s : String) : String :=
  String.mk (s.data.map (fun c => if illegalChar c then '_' else c))

/-- Python string slicing `s[:k]` (character based). -/
def truncateStr (k : Nat) (s : String) : String :=
  String.mk (s.data.take k)

/-- Python `f"{n:02d}"`: zero-pad to two digits (wider numbers unchanged). -/
def pad2 (n : Nat) : String :=
  if n < 10 then "0" ++ toString n else toString n

/-- Python `', '.join(artists)` used when building the `artist` metadata field. -/
def joinArtists (l : List String) : String :=
  String.intercalate ", " l

/-! ## detect_spotify_link (src/app.py lines 140-153, src/main.py lines 94-109)

Both scripts run `re.search(pattern, url.split('?')[0])` for the three patterns
`spotify\.com/track/([a-zA-Z0-9]+)`, `.../album/...`, `.../playlist/...` in
that order, inside a `try/except` that returns `None`.  The regex is a literal
prefix followed by a greedy non-empty ASCII-alphanumeric capture group;
`re.search` finds the leftmost position where the whole pattern matches.  The
embedding below is total, mirroring the fact that the Python function cannot
raise to its caller. -/

/-- ASCII character class `[a-zA-Z0-9]` of the regex capture groups. -/
def isAlnumA (c : Char) : Bool :=
  ('a' ≤ c && c ≤ 'z') || ('A' ≤ c && c ≤ 'Z') || ('0' ≤ c && c ≤ '9')

/-- Boolean list-prefix test (first argument is the pattern). -/
def startsWithL : List Char → List Char → Bool
  | [], _ => true
  | _ :: _, [] => false
  | p :: ps, c :: cs => p == c && startsWithL ps cs

/-- Leftmost match of the regex `lit([a-zA-Z0-9]+)`: scan left to right for the
literal followed by at least one alphanumeric; return the greedy capture. -/
def findMatch (lit : List Char) : List Char → Option (List Char)
  | [] => none
  | c :: rest =>
    if startsWithL lit (c :: rest) then
      let g := ((c :: rest).drop lit.length).takeWhile isAlnumA
      if g = [] then findMatch lit rest else some g
    else findMatch lit rest

/-- Literal part of the `track` pattern (`\.` is a literal dot). -/
def trackPattern : List Char := "spotify.com/track/".data

/-- Literal part of the `album` pattern. -/
def albumPattern : List Char := "spotify.com/album/".data

/-- Literal part of the `playlist` pattern. -/
def playlistPattern : List Char := "spotify.com/playlist/".data

/-- The `{'type': ..., 'id': ...}` dict returned on a match. -/
structure LinkInfo where
  linkType : String
  linkId : String
deriving DecidableEq, Repr

/-- Pattern dictionary iteration: track, then album, then playlist. -/
def detectCore (s : List Char) : Option LinkInfo :=
  match findMatch trackPattern s with
  | some g => some ⟨"track", String.mk g⟩
  | none =>
    match findMatch albumPattern s with
    | some g => some ⟨"album", String.mk g⟩
    | none =>
      match findMatch playlistPattern s with
      | some g => some ⟨"playlist", String.mk g⟩
      | none => none

/-- Python `url.split('?')[0]`: the characters before the first `'?'`. -/
def beforeQuery (s : String) : String :=
  String.mk (s.data.takeWhile (fun c => c != '?'))

/-- Shared embedding of `detect_spotify_link` (identical behaviour in both
scripts: app.py splits at the `re.search` call, main.py splits up front). -/
def detect_spotify_link (url : String) : Option LinkInfo :=
  detectCore (beforeQuery url).data

/-! ## Query generation (src/app.py lines 235-244) -/

/-- The fixed `search_queries` list built in
`download_track_with_enhanced_fallbacks`, one entry per f-string template. -/
def search_queries (artist title : String) : List String :=
  [artist ++ " " ++ title,
   title ++ " " ++ artist,
   artist ++ " - " ++ title,
   artist ++ " " ++ title ++ " official",
   artist ++ " " ++ title ++ " audio",
   title ++ " - " ++ artist ++ " official",
   artist ++ " " ++ title ++ " music",
   title ++ " " ++ artist ++ " song"]

/-- The `get_alternative_sources` list (src/app.py lines 210-224): five
yt-dlp search directives per query. -/
def get_alternative_sources (q : String) : List String :=
  ["ytsearch5:" ++ q,
   "ytsearch10:" ++ q,
   "ytsearch5:" ++ q ++ " official",
   "ytsearch5:" ++ q ++ " audio",
   "ytsearch5:" ++ q ++ " music"]

/-- The full priority-ordered ladder of (query, source directive) pairs:
query outer loop, source inner loop, as in the nested `for` loops of
`download_track_with_enhanced_fallbacks`. -/
def ladder (artist title : String) : List (String × String) :=
  (search_queries artist title).flatMap
    (fun q => (get_alternative_sources q).map (fun s => (q, s)))

/-! ## Tagger (src/app.py `add_metadata` lines 168-208,
src/main.py `add_metadata_to_file` lines 127-172)

The tagger opens an ID3 container and conditionally sets one frame per truthy
metadata field.  We embed the frame-selection logic: which frames are written
for a given metadata dict (cover-art bytes are modelled by their byte list).
The surrounding existence check / exception handling returns `False` without
affecting which frames would be written, and is modelled at the call sites by
the tagging-success oracle of the download engines. -/

/-- Which ID3 frames the tagger writes. -/
structure Frames where
  tit2 : Bool
  tpe1 : Bool
  talb : Bool
  tdrc : Bool
  trck : Bool
  apic : Bool
deriving DecidableEq, Repr

/-- The metadata dict built in src/app.py (`title`, `artist`, `album`, `year`,
`track_number`, optional `cover_image_data`). -/
structure AppMetadata where
  title : Option String := none
  artist : Option String := none
  album : Option String := none
  year : Option Nat := none
  track_number : Option Nat := none
  cover_image_data : Option (List Nat) := none

/-- The metadata dict built in src/main.py (`title`, `artist`, `album`, `date`,
`track`, optional `cover_image_data`). -/
structure MainMetadata where
  title : Option String := none
  artist : Option String := none
  album : Option String := none
  date : Option String := none
  track : Option Nat := none
  cover_image_data : Option (List Nat) := none

/-- Frame selection of src/app.py `add_metadata`: every truthy field is
written; the APIC cover frame additionally requires
`len(metadata['cover_image_data']) < 300000`. -/
def add_metadata (md : AppMetadata) : Frames where
  tit2 := truthyStr md.title
  tpe1 := truthyStr md.artist
  talb := truthyStr md.album
  tdrc := truthyNat md.year
  trck := truthyNat md.track_number
  apic := truthyBytes md.cover_image_data &&
    decide ((md.cover_image_data.getD []).length < 300000)

/-- Frame selection of src/main.py `add_metadata_to_file`: every truthy field
is written; the APIC cover frame has no size condition at all. -/
def add_metadata_to_file (md : MainMetadata) : Frames where
  tit2 := truthyStr md.title
  tpe1 := truthyStr md.artist
  talb := truthyStr md.album
  tdrc := truthyStr md.date
  trck := truthyNat md.track
  apic := truthyBytes md.cover_image_data

/-! ## Best-match selection (src/app.py lines 265-280)

After `extract_info`, app.py scans `info['entries'][:3]` for the first entry
whose title (lower-cased) contains both `metadata['artist'].lower()` and
`metadata['title'].lower()` as substrings; failing that it falls back to
`info['entries'][0]`.  A candidate entry is modelled as `Option String`:
`some t` is an entry with truthy title `t`, `none` a falsy (null) entry. -/

/-- ASCII lower-casing of one character, as `str.lower` does on ASCII input. -/
def charLowerA (c : Char) : Char :=
  if 'A' ≤ c && c ≤ 'Z' then Char.ofNat (c.toNat + 32) else c

/-- ASCII lower-casing of a character list. -/
def toLowerL (l : List Char) : List Char :=
  l.map charLowerA

/-- Substring test on character lists (Python `needle in hay`). -/
def isSubL (needle : List Char) : List Char → Bool
  | [] => needle.isEmpty
  | c :: rest => startsWithL needle (c :: rest) || isSubL needle rest

/-- Case-insensitive substring test: Python `needle.lower() in hay.lower()`
(ASCII lower-casing, which matches `str.lower` on the ASCII inputs here). -/
def containsCI (hay needle : String) : Bool :=
  isSubL (toLowerL needle.data) (toLowerL hay.data)

/-- The relevance check applied to one candidate entry. -/
def matchPred (artist title : String) : Option String → Bool
  | some s => containsCI s artist && containsCI s title
  | none => false

/-- The selection: first relevant entry among the first three, else the first
entry of the list (`none` means nothing is downloaded). -/
def bestMatch (artist title : String) (entries : List (Option String)) :
    Option String :=
  match (entries.take 3).find? (matchPred artist title) with
  | some e => e
  | none => entries.headD none

/-! ## Acquisition engine of src/app.py
(`download_track_with_enhanced_fallbacks`, lines 226-316)

The nested loops try each (query, source) pair once.  Per pair the oracle
answers what the environment did:
* `err`     — `extract_info` or the subsequent `download` raised; the inner or
              outer `except` runs `continue`, skipping the `time.sleep(2)`;
* `noInfo`  — falsy info / no entries: fall through to `time.sleep(2)`;
* `got cs fsz` — entries `cs` were returned; if a candidate is selected and a
              matching `.mp3` appears in the output directory, `fsz = some n`
              gives its size in bytes, else `fsz = none` (fall through to the
              sleep).

On a produced file the code moves it to the final path and returns that path
whether or not `add_metadata` succeeded (the `tagOk` oracle).  The result pairs
the outcome (`some size` = returned file, `none` = all attempts failed) with
the attempt log: each attempted pair together with the `time.sleep` seconds
executed after it. -/

inductive FetchOutcome where
  | err : FetchOutcome
  | noInfo : FetchOutcome
  | got : List (Option String) → Option Nat → FetchOutcome
deriving DecidableEq, Repr

/-- One pass of the nested source loops over a list of (query, source) pairs. -/
def runPairs (artist title : String) (oracle : String × String → FetchOutcome)
    (tagOk : String × String → Bool) :
    List (String × String) → Option Nat × List ((String × String) × Nat)
  | [] => (none, [])
  | p :: rest =>
    match oracle p with
    | FetchOutcome.err =>
      let r := runPairs artist title oracle tagOk rest
      (r.1, (p, 0) :: r.2)
    | FetchOutcome.noInfo =>
      let r := runPairs artist title oracle tagOk rest
      (r.1, (p, 2) :: r.2)
    | FetchOutcome.got cs fsz =>
      match bestMatch artist title cs with
      | none =>
        let r := runPairs artist title oracle tagOk rest
        (r.1, (p, 2) :: r.2)
      | some _ =>
        match fsz with
        | none =>
          let r := runPairs artist title oracle tagOk rest
          (r.1, (p, 2) :: r.2)
        | some n => (if tagOk p then some n else some n, [(p, 0)])

/-- src/app.py `download_track_with_enhanced_fallbacks`: run the full ladder. -/
def download_track_with_enhanced_fallbacks (artist title : String)
    (oracle : String × String → FetchOutcome) (tagOk : String × String → Bool) :
    Option Nat × List ((String × String) × Nat) :=
  runPairs artist title oracle tagOk (ladder artist title)

/-! ## Acquisition engine of src/main.py
(`search_and_download_youtube`, lines 174-227)

A `for attempt in range(max_retries)` loop around one `ytsearch1` query.  Per
attempt the oracle answers:
* `err`    — the attempt raised; if it was not the last attempt the code
             sleeps `2 ** attempt` seconds before retrying;
* `file n` — an mp3 of size `n` was found (the expected path or the newest
             `.mp3` fallback); the path is returned whether or not
             `add_metadata_to_file` succeeded;
* `noFile` — the attempt completed but produced no file: the loop continues
             with no sleep.

The result pairs the outcome with the list of sleep durations executed. -/

inductive MainOutcome where
  | err : MainOutcome
  | file : Nat → MainOutcome
  | noFile : MainOutcome
deriving DecidableEq, Repr

/-- The retry loop, with `fuel` remaining attempts and `k` the attempt index. -/
def mainLoop (oracle : Nat → MainOutcome) (tagOk : Nat → Bool)
    (maxRetries : Nat) : Nat → Nat → Option Nat × List Nat
  | 0, _ => (none, [])
  | fuel + 1, k =>
    match oracle k with
    | MainOutcome.file n => (if tagOk k then some n else some n, [])
    | MainOutcome.noFile => mainLoop oracle tagOk maxRetries fuel (k + 1)
    | MainOutcome.err =>
      if k < maxRetries - 1 then
        let r := mainLoop oracle tagOk maxRetries fuel (k + 1)
        (r.1, 2 ^ k :: r.2)
      else
        mainLoop oracle tagOk maxRetries fuel (k + 1)

/-- src/main.py `search_and_download_youtube` with its `max_retries`
parameter (callers use the default 2). -/
def search_and_download_youtube (maxRetries : Nat)
    (oracle : Nat → MainOutcome) (tagOk : Nat → Bool) : Option Nat × List Nat :=
  mainLoop oracle tagOk maxRetries maxRetries 0

/-! ## Endpoint control flow and workspace cleanup

The four route handlers create a scratch temp directory (the Workspace) and
delete it on some exit paths.  Each model maps the environment outcomes to the
pair (HTTP status or batch result, number of `shutil.rmtree` calls executed on
the request's temp directory before the request completes).  The `raises` flag
stands for an exception thrown inside the handler's `try` body after the
directory exists; `send_file` plus the registered `after_this_request` callback
are taken to run normally on the success path. -/

/-- A track of a batch: its Spotify `name` and artist list. -/
structure ZTrack where
  name : String
  artists : List String
deriving DecidableEq, Repr

/-- Batch response shape shared by the two `download_zip` handlers. -/
inductive ZipResult where
  | notFound : ZipResult
  | failure : ZipResult
  | archive : List String → ZipResult
  | serverError : ZipResult
deriving DecidableEq, Repr

namespace AppPy

/-- src/app.py `stream_track` (lines 480-547): `tempfile.mkdtemp()` first;
then in order: track lookup (404 return with no cleanup, line 489), download
(500 return with no cleanup, lines 516-521 — the `after_this_request` cleanup
at line 526 is not yet registered), success (cleanup callback, one `rmtree`),
and the `except` branch (one `rmtree`, lines 543-547). -/
def stream_track (raises trackFound : Bool) (downloaded : Option Nat) :
    Nat × Nat :=
  if raises then (500, 1)
  else if trackFound = false then (404, 0)
  else
    match downloaded with
    | none => (500, 0)
    | some _ => (200, 1)

/-- Archive entry name of src/app.py `download_zip` (lines 594-595):
`f"{i+1:02d} - {artist} - {title}.mp3"`, sanitised then truncated to 150. -/
def entry_name (i : Nat) (artist title : String) : String :=
  truncateStr 150
    (sanitize (pad2 (i + 1) ++ " - " ++ artist ++ " - " ++ title ++ ".mp3"))

/-- Entries of the in-memory ZIP built by src/app.py `download_zip` (lines
569-605): the sequential loop over `item_info['tracks'][:min(len,8)]` appends
one entry per successfully downloaded track, in loop order; `ok i` says
whether the download of the track at zero-based index `i` produced a file. -/
def zip_entries (tracks : List ZTrack) (ok : Nat → Bool) : List String :=
  ((tracks.take 8).enum.filter (fun p => ok p.1)).map
    (fun p => entry_name p.1 (joinArtists p.2.artists) p.2.name)

/-- src/app.py `download_zip` (lines 549-637): `mkdtemp` at line 556; item
lookup failure returns 404 with no cleanup (line 562); `successful_downloads
== 0` returns 500 with no cleanup (lines 607-608 — the cleanup callback at
line 612 is not yet registered); otherwise the ZIP is sent and the callback
deletes the directory once; the `except` branch deletes it once. -/
def download_zip (infoFound raises : Bool) (tracks : List ZTrack)
    (ok : Nat → Bool) : ZipResult × Nat :=
  if raises then (ZipResult.serverError, 1)
  else if infoFound = false then (ZipResult.notFound, 0)
  else
    let entries := zip_entries tracks ok
    if entries.length = 0 then (ZipResult.failure, 0)
    else (ZipResult.archive entries, 1)

end AppPy

namespace MainPy

/-- src/main.py `stream_file` (lines 410-461): `mkdtemp` at line 417; track
lookup failure returns 404 with no cleanup (lines 421-422); download failure
deletes the directory then returns 500 (lines 430-434); success registers the
cleanup callback; the `except` branch deletes it once. -/
def stream_file (raises trackFound : Bool) (downloaded : Option Nat) :
    Nat × Nat :=
  if raises then (500, 1)
  else if trackFound = false then (404, 0)
  else
    match downloaded with
    | none => (500, 1)
    | some _ => (200, 1)

/-- File name written by src/main.py `search_and_download_youtube` (lines
181-185) and hence the archive entry name produced by `shutil.make_archive`:
`BRANDING_PREFIX + f"{artist} - {title}"` sanitised, truncated to 150, plus
the `.mp3` extension from the output template.  No position component. -/
def entry_name (artist title : String) : String :=
  truncateStr 150
    (sanitize ("VibeDownloader.me - " ++ artist ++ " - " ++ title)) ++ ".mp3"

/-- Entries of the archive built by src/main.py `download_zip` (lines
463-546): the files left in `zip_temp_dir` by the successful downloads of
`item_info['tracks'][:10]`.  `make_archive` lists the directory in an
environment-chosen order; the model lists the successes in track order, which
none of the theorems below depend on (they use entry names and emptiness). -/
def zip_entries (tracks : List ZTrack) (ok : Nat → Bool) : List String :=
  ((tracks.take 10).enum.filter (fun p => ok p.1)).map
    (fun p => entry_name (joinArtists p.2.artists) p.2.name)

/-- src/main.py `download_zip`: the item lookup happens before `mkdtemp`
(404 path has no workspace, zero deletions of a never-created directory);
afterwards the archive of whatever downloads succeeded is always sent — there
is no zero-success check — and the cleanup callback or the `except` branch
deletes the directory once. -/
def download_zip (infoFound raises : Bool) (tracks : List ZTrack)
    (ok : Nat → Bool) : ZipResult × Nat :=
  if infoFound = false then (ZipResult.notFound, 0)
  else if raises then (ZipResult.serverError, 1)
  else (ZipResult.archive (zip_entries tracks ok), 1)

end MainPy

/-! ## Helper lemmas -/

/-- Taking while a predicate holds distributes over an append whose left part
satisfies the predicate everywhere. -/
theorem takeWhile_append_all (p : Char → Bool) (l₁ l₂ : List Char)
    (h : ∀ x ∈ l₁, p x = true) :
    (l₁ ++ l₂).takeWhile p = l₁ ++ l₂.takeWhile p := by
  induction l₁ with
  | nil => simp
  | cons a as ih =>
    have ha : p a = true := h a (List.mem_cons_self a as)
    simp [List.takeWhile_cons, ha,
      ih (fun x hx => h x (List.mem_cons_of_mem a hx))]

/-- Appending query parameters after a `'?'` does not change the part of the
URL that `detect_spotify_link` looks at. -/
theorem beforeQuery_append (u q : String) (h : '?' ∉ u.data) :
    beforeQuery (u ++ "?" ++ q) = beforeQuery u := by
  unfold beforeQuery
  have hall : ∀ x ∈ u.data, (x != '?') = true := by
    intro x hx
    have hne : x ≠ '?' := fun he => h (he ▸ hx)
    simpa using hne
  have hdata : (u ++ "?" ++ q).data = u.data ++ ('?' :: q.data) := by
    simp [String.data_append]
  rw [hdata, takeWhile_append_all _ _ _ hall]
  have h0 : List.takeWhile (fun c => c != '?') ('?' :: q.data) = [] := by
    simp [List.takeWhile_cons]
  rw [h0, List.append_nil]
  have h2 : List.takeWhile (fun c => c != '?') u.data = u.data := by
    have := takeWhile_append_all (fun c => c != '?') u.data [] hall
    simpa using this
  rw [h2]

/-- The first element of an all-negative prefix never wins `find?`. -/
theorem find?_append_first {α : Type} (p : α → Bool) (e : α) :
    ∀ (l₁ l₂ : List α), (∀ x ∈ l₁, p x = false) → p e = true →
      (l₁ ++ e :: l₂).find? p = some e := by
  intro l₁ l₂ h he
  induction l₁ with
  | nil => simpa using List.find?_cons_of_pos l₂ he
  | cons a as ih =>
    have ha : p a = false := h a (List.mem_cons_self a as)
    rw [List.cons_append, List.find?_cons_of_neg _ (by simp [ha])]
    exact ih (fun x hx => h x (List.mem_cons_of_mem a hx))

/-! ## Claim C10 -/

/-- C10: `detect_spotify_link` looks only at the portion of the URL before the
first `'?'`: a Spotify URL with trailing query parameters resolves to the same
`{type, id}` as the bare URL, and the result is `None` exactly when none of the
three patterns matches the pre-`'?'` part.  The embedding is a total function,
mirroring the `try/except` that prevents the Python function from raising. -/
theorem detect_spotify_link_query_invariant :
    (∀ u q : String, '?' ∉ u.data →
        detect_spotify_link (u ++ "?" ++ q) = detect_spotify_link u) ∧
    (∀ u : String,
        detect_spotify_link u = none ↔
          (findMatch trackPattern (beforeQuery u).data = none ∧
           findMatch albumPattern (beforeQuery u).data = none ∧
           findMatch playlistPattern (beforeQuery u).data = none)) := by
  constructor
  · intro u q h
    unfold detect_spotify_link
    rw [beforeQuery_append u q h]
  · intro u
    unfold detect_spotify_link detectCore
    rcases h1 : findMatch trackPattern (beforeQuery u).data with _ | g1 <;>
      rcases h2 : findMatch albumPattern (beforeQuery u).data with _ | g2 <;>
      rcases h3 : findMatch playlistPattern (beforeQuery u).data with _ | g3 <;>
      simp [h1, h2, h3]

/-- Witness: a real track URL with and without `?si=...` query parameters. -/
theorem detect_spotify_link_query_invariant_witness :
    detect_spotify_link
        ("https://open.spotify.com/track/4uLU6hMCjMI75M1A2tKUQC" ++ "?" ++ "si=abc") =
      detect_spotify_link "https://open.spotify.com/track/4uLU6hMCjMI75M1A2tKUQC" ∧
    detect_spotify_link "https://open.spotify.com/track/4uLU6hMCjMI75M1A2tKUQC" =
      some ⟨"track", "4uLU6hMCjMI75M1A2tKUQC"⟩ :=
  ⟨detect_spotify_link_query_invariant.1 _ _ (by decide), by decide⟩

/-! ## Claim C8 -/

/-- C8 counterexample: with an empty artist and an empty title the first two
templates produce the same string, so the query list is not deduplicated. -/
theorem search_queries_not_deduplicated :
    ¬ (search_queries "" "").Nodup ∧
    (search_queries "" "").get? 0 = (search_queries "" "").get? 1 := by
  exact ⟨by decide, rfl⟩

/-- C8 amended: the query list is a fixed ordered list of exactly 8 search
strings built from the artist/title templates — deterministic (it is a pure
function of the two fields), non-empty and of length at least 3 for every
input, including empty artist or title — but it is not deduplicated. -/
theorem search_queries_shape (a t : String) :
    (search_queries a t).length = 8 ∧
    search_queries a t ≠ [] ∧
    3 ≤ (search_queries a t).length ∧
    (search_queries a t).head? = some (a ++ " " ++ t) := by
  have hl : (search_queries a t).length = 8 := rfl
  refine ⟨hl, by simp [search_queries], by omega, rfl⟩

/-! ## Claim C5 -/

/-- C5 counterexample: a 400000-byte cover exceeds the 300000-byte ceiling
that src/app.py enforces, yet src/main.py's `add_metadata_to_file` embeds it
anyway — the claimed "embeds if and only if within the ceiling" is false for
the main.py tagger. -/
theorem cover_art_ceiling_counterexample :
    truthyBytes (some (List.replicate 400000 0)) = true ∧
    300000 ≤ (List.replicate 400000 (0 : Nat)).length ∧
    (add_metadata_to_file
      { cover_image_data := some (List.replicate 400000 0) }).apic = true ∧
    (add_metadata
      { cover_image_data := some (List.replicate 400000 0) }).apic = false := by
  have hrep : List.replicate 400000 (0 : Nat) = 0 :: List.replicate 399999 0 := by
    rw [show (400000 : Nat) = 399999 + 1 from rfl, List.replicate_succ]
  have htr : truthyBytes (some (List.replicate 400000 0)) = true := by
    rw [hrep]; rfl
  have hlen : (List.replicate 400000 (0 : Nat)).length = 400000 :=
    List.length_replicate _ _
  refine ⟨htr, by omega, ?_, ?_⟩
  · simp only [add_metadata_to_file]
    exact htr
  · simp only [add_metadata, Option.getD_some, htr, Bool.true_and]
    rw [decide_eq_false_iff_not]
    omega

/-- C5 amended: src/app.py's tagger embeds the cover as an APIC front-cover
frame if and only if the bytes are truthy and strictly smaller than 300000
bytes, and the cover never influences the other tag frames; src/main.py's
tagger embeds any truthy cover with no size ceiling at all. -/
theorem cover_art_ceiling_amended :
    (∀ md : AppMetadata,
        ((add_metadata md).apic = true ↔
          (truthyBytes md.cover_image_data = true ∧
            (md.cover_image_data.getD []).length < 300000))) ∧
    (∀ (md : AppMetadata) (c : Option (List Nat)),
        (add_metadata { md with cover_image_data := c }).tit2 =
            (add_metadata md).tit2 ∧
        (add_metadata { md with cover_image_data := c }).tpe1 =
            (add_metadata md).tpe1 ∧
        (add_metadata { md with cover_image_data := c }).talb =
            (add_metadata md).talb ∧
        (add_metadata { md with cover_image_data := c }).tdrc =
            (add_metadata md).tdrc ∧
        (add_metadata { md with cover_image_data := c }).trck =
            (add_metadata md).trck) ∧
    (∀ md : MainMetadata,
        ((add_metadata_to_file md).apic = true ↔
          truthyBytes md.cover_image_data = true)) := by
  refine ⟨?_, ?_, ?_⟩
  · intro md
    simp [add_metadata, Bool.and_eq_true]
  · intro md c
    exact ⟨rfl, rfl, rfl, rfl, rfl⟩
  · intro md
    simp [add_metadata_to_file]

/-! ## Claim C4 -/

/-- C4: tagging failure is swallowed.  Both download engines return the same
result and attempt log under any two tagging-success oracles whatsoever: once
the audio fetch has produced a file, the path is returned whether
`add_metadata` / `add_metadata_to_file` reported success or failure, so a
tagging failure can never convert a fetched track into a failed result. -/
theorem tagging_failure_swallowed :
    (∀ (a t : String) (o : String × String → FetchOutcome)
        (tg tg2 : String × String → Bool) (l : List (String × String)),
        runPairs a t o tg l = runPairs a t o tg2 l) ∧
    (∀ (o : Nat → MainOutcome) (tg tg2 : Nat → Bool) (m fuel k : Nat),
        mainLoop o tg m fuel k = mainLoop o tg2 m fuel k) := by
  constructor
  · intro a t o tg tg2 l
    induction l with
    | nil => rfl
    | cons p rest ih =>
      cases ho : o p with
      | err => simp [runPairs, ho, ih]
      | noInfo => simp [runPairs, ho, ih]
      | got cs fsz =>
        cases hb : bestMatch a t cs with
        | none => simp [runPairs, ho, hb, ih]
        | some e =>
          cases fsz with
          | none => simp [runPairs, ho, hb, ih]
          | some n => simp [runPairs, ho, hb, ite_self]
  · intro o tg tg2 m fuel k
    induction fuel generalizing k with
    | zero => rfl
    | succ f ih =>
      cases ho : o k with
      | err => by_cases hk : k < m - 1 <;> simp [mainLoop, ho, hk, ih]
      | file n => simp [mainLoop, ho, ite_self]
      | noFile => simp [mainLoop, ho, ih]

/-! ## Claim C6 -/

/-- C6 counterexample: the fourth candidate is the only one whose title
contains both the artist and the title case-insensitively, yet the code —
which scans only `info['entries'][:3]` — falls back to the first candidate
instead of selecting it, so the claim as stated is false. -/
theorem best_match_counterexample :
    ¬ (bestMatch "artist" "title"
        [some "aaa", some "bbb", some "ccc", some "Artist - Title (Official)"] =
       some "Artist - Title (Official)") ∧
    matchPred "artist" "title" (some "Artist - Title (Official)") = true ∧
    matchPred "artist" "title" (some "aaa") = false ∧
    matchPred "artist" "title" (some "bbb") = false ∧
    matchPred "artist" "title" (some "ccc") = false ∧
    bestMatch "artist" "title"
        [some "aaa", some "bbb", some "ccc", some "Artist - Title (Official)"] =
      some "aaa" := by
  refine ⟨by decide, by decide, by decide, by decide, by decide, by decide⟩

/-- C6 amended: the engine selects the first candidate among the FIRST THREE
whose title contains both the artist and the title string as case-insensitive
substrings; when none of the first three matches, it falls back to the first
candidate of the whole list (`none`, i.e. a falsy entry, when the list is
empty). -/
theorem best_match_scans_first_three :
    (∀ (a t : String) (es l₁ l₂ : List (Option String)) (e : Option String),
        es.take 3 = l₁ ++ e :: l₂ →
        (∀ x ∈ l₁, matchPred a t x = false) →
        matchPred a t e = true →
        bestMatch a t es = e) ∧
    (∀ (a t : String) (es : List (Option String)),
        (∀ x ∈ es.take 3, matchPred a t x = false) →
        bestMatch a t es = es.headD none) := by
  constructor
  · intro a t es l₁ l₂ e hsplit hneg hpos
    unfold bestMatch
    rw [hsplit, find?_append_first _ _ _ _ hneg hpos]
  · intro a t es hall
    unfold bestMatch
    rw [List.find?_eq_none.mpr (fun x hx => by simp [hall x hx])]

/-- Witness for the amended C6 selection rule, at concrete candidate lists. -/
theorem best_match_scans_first_three_witness :
    bestMatch "artist" "title" [some "zzz", some "The Artist - Title video"] =
      some "The Artist - Title video" ∧
    bestMatch "artist" "title" [some "zzz", some "yyy"] = some "zzz" :=
  ⟨best_match_scans_first_three.1 "artist" "title"
      [some "zzz", some "The Artist - Title video"]
      [some "zzz"] [] (some "The Artist - Title video")
      rfl (by decide) (by decide),
   best_match_scans_first_three.2 "artist" "title" [some "zzz", some "yyy"]
      (by decide)⟩

/-! ## Claim C7 -/

/-- With a source that fails transiently on every call, every (query, source)
pair of the list is attempted exactly once, no `time.sleep` runs (the `except`
branches `continue` past the fixed delay), and the engine fails. -/
theorem runPairs_always_transient (a t : String)
    (tg : String × String → Bool) :
    ∀ l : List (String × String),
      runPairs a t (fun _ => FetchOutcome.err) tg l =
        (none, l.map (fun p => (p, 0))) := by
  intro l
  induction l with
  | nil => rfl
  | cons p rest ih => simp [runPairs, ih]

/-- With an always-transient source, src/main.py's retry loop attempts the
same query once per attempt index and sleeps `2 ** attempt` seconds after
every failed attempt except the last. -/
theorem mainLoop_always_transient (tg : Nat → Bool) (m : Nat) :
    ∀ fuel k, k + fuel = m →
      mainLoop (fun _ => MainOutcome.err) tg m fuel k =
        (none, (List.range' k (fuel - 1)).map (fun j => 2 ^ j)) := by
  intro fuel
  induction fuel with
  | zero => intro k hk; rfl
  | succ f ihf =>
    intro k hk
    have hstep : mainLoop (fun _ => MainOutcome.err) tg m (f + 1) k =
        if k < m - 1 then
          ((mainLoop (fun _ => MainOutcome.err) tg m f (k + 1)).1,
            2 ^ k :: (mainLoop (fun _ => MainOutcome.err) tg m f (k + 1)).2)
        else mainLoop (fun _ => MainOutcome.err) tg m f (k + 1) := rfl
    cases f with
    | zero =>
      have hk1 : ¬ k < m - 1 := by omega
      rw [hstep, if_neg hk1]
      rfl
    | succ f2 =>
      have hk1 : k < m - 1 := by omega
      have hrec := ihf (k + 1) (by omega)
      rw [hstep, if_pos hk1, hrec]
      rw [show f2 + 1 + 1 - 1 = f2 + 1 from rfl,
        show f2 + 1 - 1 = f2 from rfl, List.range'_succ]
      simp

/-- C7 amended: the two scripts have no common retry-with-backoff behaviour.
src/app.py never retries a pair: a transient error advances immediately to the
next (query, source) pair of the 8 x 5 ladder — with zero delay, since the
`except: continue` even skips the fixed 2-second inter-attempt sleep — and an
always-transient source makes it try all pairs once each, in ladder order,
before failing.  src/main.py retries its single query: after each failed
attempt except the last it sleeps `2 ** attempt` seconds (a doubling backoff)
for up to `max_retries` attempts (callers use the default 2), then fails. -/
theorem retry_policy_amended :
    (∀ (a t : String) (tg : String × String → Bool),
        download_track_with_enhanced_fallbacks a t
            (fun _ => FetchOutcome.err) tg =
          (none, (ladder a t).map (fun p => (p, 0)))) ∧
    (∀ (m : Nat) (tg : Nat → Bool),
        search_and_download_youtube m (fun _ => MainOutcome.err) tg =
          (none, (List.range (m - 1)).map (fun j => 2 ^ j))) := by
  constructor
  · intro a t tg
    exact runPairs_always_transient a t tg (ladder a t)
  · intro m tg
    have h := mainLoop_always_transient tg m m 0 (by omega)
    simpa [search_and_download_youtube, List.range_eq_range'] using h

/-- C7 counterexample: under an always-transient source the first pair is
attempted exactly once (the claim requires it to be retried up to a cap of at
least one retry before advancing) and every attempt is followed by a delay of
0 seconds (no exponential backoff); under an always-empty source the engine
does NOT advance immediately: a fixed 2-second delay follows each attempt. -/
theorem retry_policy_counterexample :
    ((download_track_with_enhanced_fallbacks "a" "b"
        (fun _ => FetchOutcome.err) (fun _ => true)).2.map Prod.fst).count
      ("a b", "ytsearch5:a b") = 1 ∧
    (download_track_with_enhanced_fallbacks "a" "b"
        (fun _ => FetchOutcome.err) (fun _ => true)).2.map Prod.snd =
      List.replicate 40 0 ∧
    (download_track_with_enhanced_fallbacks "a" "b"
        (fun _ => FetchOutcome.noInfo) (fun _ => true)).2.headD (("", ""), 0) =
      (("a b", "ytsearch5:a b"), 2) := by
  refine ⟨by decide, by decide, by decide⟩

/-! ## Claim C9 -/

/-- When the app.py engine returns a path, some attempted pair's download
produced a matching file of exactly the returned size. -/
theorem runPairs_success_sound (a t : String)
    (o : String × String → FetchOutcome) (tg : String × String → Bool) :
    ∀ (l : List (String × String)) (n : Nat)
      (log : List ((String × String) × Nat)),
      runPairs a t o tg l = (some n, log) →
      ∃ p cs, p ∈ l ∧ o p = FetchOutcome.got cs (some n) := by
  intro l
  induction l with
  | nil => intro n log h; exact absurd h (by simp [runPairs])
  | cons p rest ih =>
    intro n log h
    cases ho : o p with
    | err =>
      simp only [runPairs, ho, Prod.mk.injEq] at h
      obtain ⟨q, cs, hq, hoq⟩ := ih n _ (by rw [← h.1])
      exact ⟨q, cs, List.mem_cons_of_mem p hq, hoq⟩
    | noInfo =>
      simp only [runPairs, ho, Prod.mk.injEq] at h
      obtain ⟨q, cs, hq, hoq⟩ := ih n _ (by rw [← h.1])
      exact ⟨q, cs, List.mem_cons_of_mem p hq, hoq⟩
    | got cs fsz =>
      cases hb : bestMatch a t cs with
      | none =>
        simp only [runPairs, ho, hb, Prod.mk.injEq] at h
        obtain ⟨q, cs2, hq, hoq⟩ := ih n _ (by rw [← h.1])
        exact ⟨q, cs2, List.mem_cons_of_mem p hq, hoq⟩
      | some e =>
        cases fsz with
        | none =>
          simp only [runPairs, ho, hb, Prod.mk.injEq] at h
          obtain ⟨q, cs2, hq, hoq⟩ := ih n _ (by rw [← h.1])
          exact ⟨q, cs2, List.mem_cons_of_mem p hq, hoq⟩
        | some sz =>
          simp only [runPairs, ho, hb, ite_self, Prod.mk.injEq,
            Option.some.injEq] at h
          exact ⟨p, cs, List.mem_cons_self p rest, by rw [ho, h.1]⟩

/-- When the main.py engine returns a path, some attempt found an mp3 of
exactly the returned size. -/
theorem mainLoop_success_sound (o : Nat → MainOutcome) (tg : Nat → Bool)
    (m : Nat) :
    ∀ (fuel k n : Nat) (log : List Nat),
      mainLoop o tg m fuel k = (some n, log) →
      ∃ j, o j = MainOutcome.file n := by
  intro fuel
  induction fuel with
  | zero => intro k n log h; exact absurd h (by simp [mainLoop])
  | succ f ih =>
    intro k n log h
    cases ho : o k with
    | err =>
      by_cases hk : k < m - 1
      · simp only [mainLoop, ho, hk, if_true, Prod.mk.injEq] at h
        exact ih (k + 1) n _ (by rw [← h.1])
      · simp only [mainLoop, ho, hk, if_false] at h
        exact ih (k + 1) n _ h
    | file n2 =>
      simp only [mainLoop, ho, ite_self, Prod.mk.injEq,
        Option.some.injEq] at h
      exact ⟨k, by rw [ho, h.1]⟩
    | noFile =>
      simp only [mainLoop, ho] at h
      exact ih (k + 1) n _ h

/-- C9 amended: when either engine reports success, a file does exist at the
returned path — the code checks `os.path.exists` before returning — and the
returned size is exactly the size of the file the environment produced; but
neither engine checks that the file is non-empty, so "Succeeded implies a
NON-EMPTY file" does not hold (see the counterexample). -/
theorem succeeded_implies_file_exists :
    (∀ (a t : String) (o : String × String → FetchOutcome)
        (tg : String × String → Bool) (n : Nat)
        (log : List ((String × String) × Nat)),
        download_track_with_enhanced_fallbacks a t o tg = (some n, log) →
        ∃ p cs, p ∈ ladder a t ∧ o p = FetchOutcome.got cs (some n)) ∧
    (∀ (m : Nat) (o : Nat → MainOutcome) (tg : Nat → Bool) (n : Nat)
        (log : List Nat),
        search_and_download_youtube m o tg = (some n, log) →
        ∃ j, o j = MainOutcome.file n) := by
  constructor
  · intro a t o tg n log h
    exact runPairs_success_sound a t o tg (ladder a t) n log h
  · intro m o tg n log h
    exact mainLoop_success_sound o tg m m 0 n log h

/-- Environment in which the very first ladder pair yields one matching
candidate and a downloaded file of 7 bytes. -/
def sevenByteOracle : String × String → FetchOutcome :=
  fun p =>
    if p = ("a b", "ytsearch5:a b") then
      FetchOutcome.got [some "a b"] (some 7)
    else FetchOutcome.err

/-- Witness: applying the success-soundness theorem at the concrete
seven-byte environment. -/
theorem succeeded_implies_file_exists_witness :
    ∃ p cs, p ∈ ladder "a" "b" ∧
      sevenByteOracle p = FetchOutcome.got cs (some 7) :=
  succeeded_implies_file_exists.1 "a" "b" sevenByteOracle (fun _ => true) 7
    [(("a b", "ytsearch5:a b"), 0)] (by decide)

/-- Environment in which the very first ladder pair yields one matching
candidate and a downloaded file of 0 bytes. -/
def zeroByteOracle : String × String → FetchOutcome :=
  fun p =>
    if p = ("a b", "ytsearch5:a b") then
      FetchOutcome.got [some "a b"] (some 0)
    else FetchOutcome.err

/-- C9 counterexample: the engine reports success carrying a 0-byte (empty)
file — `os.path.exists` passes for an empty file and no size check exists —
so "Succeeded is never reported with a missing or EMPTY output file" is
false. -/
theorem succeeded_empty_file_counterexample :
    (download_track_with_enhanced_fallbacks "a" "b" zeroByteOracle
        (fun _ => true)).1 = some 0 := by
  decide

/-! ## Claim C1 -/

/-- C1 counterexample: three completed requests that delete their Workspace
zero times.  In src/app.py's `stream_track` the download-failure return (500)
and the track-not-found return (404) both happen before the cleanup callback
is registered; in src/app.py's `download_zip` the zero-success return (500)
likewise leaks the directory; in src/main.py's `stream_file` the
track-not-found return (404) leaks it. -/
theorem workspace_cleanup_counterexample :
    (AppPy.stream_track false true none).1 = 500 ∧
    (AppPy.stream_track false true none).2 = 0 ∧
    (AppPy.stream_track false false none).2 = 0 ∧
    (AppPy.download_zip true false [⟨"n1", ["a1"]⟩] (fun _ => false)).1 =
      ZipResult.failure ∧
    (AppPy.download_zip true false [⟨"n1", ["a1"]⟩] (fun _ => false)).2 = 0 ∧
    (MainPy.stream_file false false none).2 = 0 := by
  refine ⟨rfl, rfl, rfl, by decide, by decide, rfl⟩

/-- C1 amended: the Workspace is deleted at most once, and exactly once on
the success and exception paths of all four handlers (and on main.py's
download-failure path) — but the early-return paths leave it undeleted:
app.py `stream_track` deletes iff an exception was caught or the track was
found and the download produced a file; main.py `stream_file` deletes iff an
exception was caught or the track was found; app.py `download_zip` deletes
iff an exception was caught or the item was found and at least one track
succeeded; main.py `download_zip` deletes iff the item was found (its 404
path precedes directory creation, so nothing leaks there). -/
theorem workspace_cleanup_amended :
    (∀ (r tf : Bool) (d : Option Nat),
        (AppPy.stream_track r tf d).2 ≤ 1 ∧
        ((AppPy.stream_track r tf d).2 = 1 ↔
          (r = true ∨ (tf = true ∧ d.isSome = true)))) ∧
    (∀ (r tf : Bool) (d : Option Nat),
        (MainPy.stream_file r tf d).2 ≤ 1 ∧
        ((MainPy.stream_file r tf d).2 = 1 ↔ (r = true ∨ tf = true))) ∧
    (∀ (inf r : Bool) (ts : List ZTrack) (ok : Nat → Bool),
        (AppPy.download_zip inf r ts ok).2 ≤ 1 ∧
        ((AppPy.download_zip inf r ts ok).2 = 1 ↔
          (r = true ∨ (inf = true ∧ AppPy.zip_entries ts ok ≠ [])))) ∧
    (∀ (inf r : Bool) (ts : List ZTrack) (ok : Nat → Bool),
        (MainPy.download_zip inf r ts ok).2 ≤ 1 ∧
        ((MainPy.download_zip inf r ts ok).2 = 1 ↔ inf = true)) := by
  refine ⟨?_, ?_, ?_, ?_⟩
  · intro r tf d
    cases r <;> cases tf <;> cases d <;> simp [AppPy.stream_track]
  · intro r tf d
    cases r <;> cases tf <;> cases d <;> simp [MainPy.stream_file]
  · intro inf r ts ok
    cases r <;> cases inf <;> simp only [AppPy.download_zip] <;> simp
    by_cases h : (AppPy.zip_entries ts ok).length = 0
    · simp [h, List.length_eq_zero.mp h]
    · have : AppPy.zip_entries ts ok ≠ [] := by
        intro he; exact h (by rw [he]; rfl)
      simp [h, this]
  · intro inf r ts ok
    cases r <;> cases inf <;> simp [MainPy.download_zip]

/-! ## Claim C2 -/

/-- C2 counterexample: in src/main.py's `download_zip` a batch whose tracks
all fail still returns a successful archive — which is empty — because the
code has no zero-success check before `shutil.make_archive`; the claimed
"batch-level failure if and only if zero tracks succeeded" is false there. -/
theorem batch_failure_counterexample :
    (MainPy.download_zip true false [⟨"n1", ["a1"]⟩, ⟨"n2", ["a2"]⟩]
        (fun _ => false)).1 = ZipResult.archive [] := by
  decide

/-- C2 amended: src/app.py's `download_zip` reports a batch-level failure if
and only if zero tracks succeeded, and any archive it returns is non-empty
(partial success returns an archive); src/main.py's `download_zip`, by
contrast, returns a successful archive of whatever succeeded regardless of
the per-track outcomes — including the empty archive when all fail. -/
theorem batch_failure_amended :
    (∀ (ts : List ZTrack) (ok : Nat → Bool),
        ((AppPy.download_zip true false ts ok).1 = ZipResult.failure ↔
          AppPy.zip_entries ts ok = [])) ∧
    (∀ (ts : List ZTrack) (ok : Nat → Bool),
        AppPy.zip_entries ts ok ≠ [] →
        (AppPy.download_zip true false ts ok).1 =
          ZipResult.archive (AppPy.zip_entries ts ok)) ∧
    (∀ (ts : List ZTrack) (ok : Nat → Bool),
        (MainPy.download_zip true false ts ok).1 =
          ZipResult.archive (MainPy.zip_entries ts ok)) := by
  refine ⟨?_, ?_, ?_⟩
  · intro ts ok
    simp only [AppPy.download_zip]
    by_cases h : (AppPy.zip_entries ts ok).length = 0
    · simp [h, List.length_eq_zero.mp h]
    · have hne : AppPy.zip_entries ts ok ≠ [] := by
        intro he; exact h (by rw [he]; rfl)
      simp [h, hne]
  · intro ts ok hne
    have h : ¬ (AppPy.zip_entries ts ok).length = 0 := by
      intro h0; exact hne (List.length_eq_zero.mp h0)
    simp [AppPy.download_zip, h]
  · intro ts ok
    simp [MainPy.download_zip]

/-- Witness: a one-track batch whose track succeeds yields the archive with
its single position-named entry. -/
theorem batch_failure_amended_witness :
    (AppPy.download_zip true false [⟨"n1", ["a1"]⟩] (fun _ => true)).1 =
      ZipResult.archive (AppPy.zip_entries [⟨"n1", ["a1"]⟩] (fun _ => true)) :=
  batch_failure_amended.2.1 [⟨"n1", ["a1"]⟩] (fun _ => true) (by decide)

/-! ## Claim C3 -/

/-- C3 counterexample: for a batch at positions [1,2,3] with track 2 failing,
src/main.py's archive contains the two entries named after branding, artist
and title only — not `01 - ...` and `03 - ...` as the claim requires (the
first entry does not even start with "01"). -/
theorem archive_ordering_counterexample :
    (MainPy.download_zip true false
        [⟨"n1", ["a1"]⟩, ⟨"n2", ["a2"]⟩, ⟨"n3", ["a3"]⟩]
        (fun i => i != 1)).1 =
      ZipResult.archive
        ["VibeDownloader.me - a1 - n1.mp3", "VibeDownloader.me - a3 - n3.mp3"] ∧
    (MainPy.entry_name "a1" "n1").data.take 4 ≠ "01 -".data := by
  refine ⟨by decide, by decide⟩

/-- C3 amended: src/app.py's `download_zip` does satisfy the claim — one
archive entry per successful track and none for failures, with the selected
positions strictly increasing (archive order is position order, never
completion order, the loop being sequential), and the spec's [1,2,3] instance
with track 2 failing yields exactly `01 - ...` and `03 - ...` in that order;
src/main.py's `download_zip` does not (see the counterexample). -/
theorem archive_ordering_amended :
    (∀ (ts : List ZTrack) (ok : Nat → Bool),
        (AppPy.zip_entries ts ok).length =
          ((ts.take 8).enum.filter (fun p => ok p.1)).length) ∧
    (∀ (ts : List ZTrack) (ok : Nat → Bool),
        List.Pairwise (· < ·)
          (((ts.take 8).enum.filter (fun p => ok p.1)).map Prod.fst)) ∧
    AppPy.zip_entries [⟨"n1", ["a1"]⟩, ⟨"n2", ["a2"]⟩, ⟨"n3", ["a3"]⟩]
        (fun i => i != 1) =
      ["01 - a1 - n1.mp3", "03 - a3 - n3.mp3"] := by
  refine ⟨?_, ?_, by decide⟩
  · intro ts ok
    simp [AppPy.zip_entries]
  · intro ts ok
    have h1 : List.Pairwise (· < ·) ((ts.take 8).enum.map Prod.fst) := by
      rw [List.enum_map_fst]
      exact List.pairwise_lt_range _
    have h2 : List.Pairwise (fun a b : Nat × ZTrack => a.1 < b.1)
        (ts.take 8).enum := List.pairwise_map.mp h1
    exact List.pairwise_map.mpr (h2.filter (fun p => ok p.1))

end SpotifyAPI
